import Mathlib

/-!
# Verification of the `lecf` domain-group lifecycle and DNS reconciliation engine

Shallow embedding of the relevant parts of `src/lecf/managers/certificate.py`
and `src/lecf/managers/ddns.py` (plus the Python string builtins they use),
with theorems settling the frozen claims about the specification.

Strings are modelled as `List Char` (Lean `String` literals are converted via
`.data`).  Python builtins (`str.split`, `str.strip`, `int`,
`datetime.strptime` with format `"%Y-%m-%d"`) are modelled as executable Lean
functions; ASCII digits and the standard whitespace predicate are used, and
`int`'s underscore digit-grouping is included.
-/

namespace Lecf

/-- Convert a Lean string literal to the `List Char` representation used
throughout this development. -/
def strL (s : String) : List Char :=
  s.data

/-! ## Python string builtins -/

/-- Python `str.strip()`: remove leading and trailing whitespace. -/
def pyStrip (s : List Char) : List Char :=
  ((s.dropWhile Char.isWhitespace).reverse.dropWhile Char.isWhitespace).reverse

/-- Worker for `pySplit`.  Fuel-based so that the definition is structurally
recursive (the fuel is initialised to the length of the input, which is
sufficient because each step consumes at least one character when the
separator is non-empty). -/
def pySplitGo (sep : List Char) : Nat → List Char → List (List Char)
  | _, [] => [[]]
  | 0, s => [s]
  | k + 1, c :: rest =>
    if sep.isPrefixOf (c :: rest) then
      [] :: pySplitGo sep k (List.drop sep.length (c :: rest))
    else
      match pySplitGo sep k rest with
      | [] => [[c]]
      | g :: gs => (c :: g) :: gs

/-- Python `s.split(sep)` for a non-empty separator string: splits on every
occurrence of `sep`, keeping empty pieces (so the result is always
non-empty).  Python raises on an empty separator; that case is unused here. -/
def pySplit (sep s : List Char) : List (List Char) :=
  if sep.isEmpty then [s] else pySplitGo sep s.length s

/-- Python `s.split()` (no argument): the maximal runs of non-whitespace
characters, in order.  Worker carrying the reversed current run. -/
def pySplitWsGo : List Char → List Char → List (List Char)
  | cur, [] => if cur.isEmpty then [] else [cur.reverse]
  | cur, c :: rest =>
    if c.isWhitespace then
      if cur.isEmpty then pySplitWsGo [] rest
      else cur.reverse :: pySplitWsGo [] rest
    else pySplitWsGo (c :: cur) rest

/-- Python `s.split()` (whitespace split, empties dropped). -/
def pySplitWs (s : List Char) : List (List Char) :=
  pySplitWsGo [] s

/-- Python substring test `needle in hay`. -/
def containsSub (needle : List Char) : List Char → Bool
  | [] => needle.isEmpty
  | c :: rest => needle.isPrefixOf (c :: rest) || containsSub needle rest

/-- Numeric value of a list of ASCII digits. -/
def digitsToNat (s : List Char) : Nat :=
  s.foldl (fun a c => a * 10 + (c.toNat - 48)) 0

/-- Digit tail accepted by Python `int`: digits with single underscores
allowed between digits. -/
def pyDigitsCore (acc : Nat) : List Char → Option Nat
  | [] => some acc
  | '_' :: c :: rest =>
    if c.isDigit then pyDigitsCore (acc * 10 + (c.toNat - 48)) rest else none
  | ['_'] => none
  | c :: rest =>
    if c.isDigit then pyDigitsCore (acc * 10 + (c.toNat - 48)) rest else none

/-- A non-empty digit group starting with a digit (Python `int` body). -/
def pyParseDigits : List Char → Option Nat
  | [] => none
  | c :: rest => if c.isDigit then pyDigitsCore (c.toNat - 48) rest else none

/-- Python `int(s)`: optional surrounding whitespace, optional sign, ASCII
digits with underscore grouping.  `none` models `ValueError`. -/
def pyInt (s : List Char) : Option Int :=
  match pyStrip s with
  | '-' :: rest => (pyParseDigits rest).map (fun n => -(n : Int))
  | '+' :: rest => (pyParseDigits rest).map (fun n => (n : Int))
  | t => (pyParseDigits t).map (fun n => (n : Int))

/-! ## Certificate manager: `CertificateManager._parse_domains`
(`src/lecf/managers/certificate.py`, lines 94-128) -/

/-- The trimmed, non-blank comma-separated entries of one certificate config
string (the contents of the Python set comprehension
`{d.strip() for d in config_str.split(",") if d.strip()}`, listed in input
order, duplicates retained; set membership is list membership). -/
def groupTokens (cfg : List Char) : List (List Char) :=
  ((pySplit (strL ",") cfg).map pyStrip).filter (fun d => ¬ d.isEmpty)

/-- Model of `CertificateManager._parse_domains`: split the spec string on `";"`,
skip groups that are blank after trimming, collect each remaining group's
trimmed non-blank FQDNs, and skip groups that end up empty. -/
def parseDomains (domainsStr : List Char) : List (List (List Char)) :=
  (pySplit (strL ";") domainsStr).foldl
    (fun result cfg =>
      if (pyStrip cfg).isEmpty then result
      else
        let domains := groupTokens cfg
        if domains.isEmpty then result else result ++ [domains])
    []

/-- Spec-side description for claim C1: the non-blank trimmed FQDNs occurring
in the input (tokens of the `";"`/`","` grammar, trimmed, blanks dropped). -/
def inputFqdns (s : List Char) : List (List Char) :=
  ((pySplit (strL ";") s).flatMap
    (fun cfg => (pySplit (strL ",") cfg).map pyStrip)).filter
    (fun d => ¬ d.isEmpty)

/-! ## `list(set)` enumeration model for `CertificateManager._execute_cycle`
(`src/lecf/managers/certificate.py`, lines 426-428)

A parsed group is a Python `set`; `domain_list = list(domain_group)`
enumerates its distinct elements in an implementation-defined
(hash-dependent) order.  An admissible enumeration function returns, for any
insertion-ordered element list, some permutation of its distinct elements. -/

/-- Admissibility of a `list(set)` enumeration order. -/
def IsSetEnum (enum : List (List Char) → List (List Char)) : Prop :=
  ∀ l, (enum l).Perm l.dedup

/-- The primary domain chosen by `CertificateManager._execute_cycle`
(lines 427-428): `domain_list = list(domain_group)`;
`primary_domain = domain_list[0]`. -/
def certCyclePrimary (enum : List (List Char) → List (List Char))
    (group : List (List Char)) : Option (List Char) :=
  (enum group).head?

/-! ## Dates: `datetime.strptime(s, "%Y-%m-%d")`
(used by `CertificateManager.check_certificate_expiry`, line 329) -/

/-- A calendar date. -/
structure Date where
  year : Nat
  month : Nat
  day : Nat
deriving DecidableEq

/-- Gregorian leap-year rule (as in Python's `datetime`). -/
def isLeapYear (y : Nat) : Bool :=
  y % 4 == 0 && (y % 100 != 0 || y % 400 == 0)

/-- Number of days in a month (as validated by Python's `datetime`). -/
def daysInMonth (y m : Nat) : Nat :=
  if m = 2 then (if isLeapYear y then 29 else 28)
  else if m = 4 ∨ m = 6 ∨ m = 9 ∨ m = 11 then 30
  else 31

/-- All characters are ASCII digits. -/
def allDigits (s : List Char) : Bool :=
  s.all Char.isDigit

/-- Model of `datetime.strptime(s, "%Y-%m-%d")`: `%Y` is exactly four digits, `%m` and
`%d` are one or two digits, the whole string must be consumed, the month must
be 1-12 and the day valid for the month and year, and the year must be at
least 1 (`datetime.MINYEAR`).  `none` models `ValueError`. -/
def parseDateYMD (s : List Char) : Option Date :=
  match pySplit (strL "-") s with
  | [ys, ms, ds] =>
    if ys.length = 4 ∧ allDigits ys = true ∧
        1 ≤ ms.length ∧ ms.length ≤ 2 ∧ allDigits ms = true ∧
        1 ≤ ds.length ∧ ds.length ≤ 2 ∧ allDigits ds = true then
      let y := digitsToNat ys
      let m := digitsToNat ms
      let d := digitsToNat ds
      if 1 ≤ y ∧ 1 ≤ m ∧ m ≤ 12 ∧ 1 ≤ d ∧ d ≤ daysInMonth y m then
        some ⟨y, m, d⟩
      else none
    else none
  | _ => none

/-! ## Certificate manager: `CertificateManager.check_certificate_expiry`
(`src/lecf/managers/certificate.py`, lines 234-420)

The `certbot certificates` subprocess is abstracted as its observable result
(exit code and stdout); real time is abstracted as the function `daysUntil`,
giving `(datetime.strptime(d, "%Y-%m-%d") - datetime.now()).days` for a
parsed date `d`. -/

/-- Observable result of the `certbot certificates --domain <primary>`
subprocess. -/
structure CertbotResult where
  returncode : Int
  stdout : List Char

/-- The marker `"VALID: "` preceding the expiry field. -/
def validTag : List Char :=
  strL "VALID: "

/-- The marker `"No certificates found."`. -/
def noCertsTag : List Char :=
  strL "No certificates found."

/-- The marker `"Domains:"`. -/
def domainsTag : List Char :=
  strL "Domains:"

/-- The marker `"days)"` of the relative expiry format. -/
def daysSuffix : List Char :=
  strL "days)"

/-- The expiry field: `result.stdout.split("VALID: ")[1].split("\n")[0]`
(line 303; only evaluated under the `"VALID: " in stdout` guard, so the
index-1 access is total). -/
def expirationPartOf (stdout : List Char) : List Char :=
  (pySplit (strL "\n") ((pySplit validTag stdout).getD 1 [])).getD 0 []

/-- The SAN list recorded in the certificate:
`domains_section = stdout.split("Domains:")[1].split("\n")[0].strip()`;
`cert_domains = [d.strip() for d in domains_section.split() if d.strip()]`
(lines 284-286). -/
def certDomainsOf (stdout : List Char) : List (List Char) :=
  (((pySplitWs (pyStrip
      ((pySplit (strL "\n") ((pySplit domainsTag stdout).getD 1 [])).getD 0 []))).map
    pyStrip).filter (fun d => ¬ d.isEmpty))

/-- The `cert_domains` value (lines 283-290): empty unless the `"Domains:"` marker is
present. -/
def certDomainsListed (stdout : List Char) : List (List Char) :=
  if containsSub domainsTag stdout then certDomainsOf stdout else []

/-- Model of `missing_domains = [d for d in domains if d not in cert_domains]`
(line 293). -/
def missingDomainsOf (stdout : List Char) (domains : List (List Char)) :
    List (List Char) :=
  domains.filter (fun d => ¬ (certDomainsListed stdout).contains d)

/-- Model of `CertificateManager.check_certificate_expiry`: `true` means the
certificate needs to be renewed or obtained.  The empty-domain-list case is
the `IndexError` on `domains[0]` caught by the outer `except` (line 414),
which returns `true`. -/
def checkCertificateExpiry (renewalThreshold : Int) (daysUntil : Date → Int)
    (domains : List (List Char)) (res : CertbotResult) : Bool :=
  if domains.isEmpty then true
  else if res.returncode ≠ 0 then true
  else if containsSub noCertsTag res.stdout then true
  else if ¬ (missingDomainsOf res.stdout domains).isEmpty then true
  else if containsSub validTag res.stdout then
    if containsSub daysSuffix (expirationPartOf res.stdout) then
      match pyInt ((pySplit (strL " ") (expirationPartOf res.stdout)).getD 0 []) with
      | none => true
      | some d => decide (d ≤ renewalThreshold)
    else
      match parseDateYMD (expirationPartOf res.stdout) with
      | none => true
      | some date => decide (daysUntil date ≤ renewalThreshold)
  else true

/-! ## Certificate manager: `CertificateManager.obtain_certificate`
(`src/lecf/managers/certificate.py`, lines 130-232)

Only the construction of the certbot command is modelled; the subprocess
invocation itself is external. -/

/-- The fixed head of the certbot command (lines 148-158). -/
def certbotBaseCmd (email : List Char) : List (List Char) :=
  [strL "certbot", strL "certonly", strL "--dns-cloudflare",
   strL "--dns-cloudflare-credentials", strL "/root/.secrets/cloudflare.ini",
   strL "--email", email, strL "--agree-tos", strL "--non-interactive"]

/-- The flags appended for a wildcard request (lines 172-173): alternate ACME
server and long DNS-propagation wait. -/
def acmeWildcardFlags : List (List Char) :=
  [strL "--server", strL "https://acme-v02.api.letsencrypt.org/directory",
   strL "--dns-cloudflare-propagation-seconds", strL "60"]

/-- Model of `has_wildcard = any("*" in domain for domain in domains)` (line 169). -/
def hasWildcard (domains : List (List Char)) : Bool :=
  domains.any (fun d => containsSub (strL "*") d)

/-- The per-domain `-d <domain>` arguments (lines 180-181). -/
def domainArgs (domains : List (List Char)) : List (List Char) :=
  domains.flatMap (fun d => [strL "-d", d])

/-- The full certbot command built by `obtain_certificate`. -/
def obtainCertificateCmd (staging : Bool) (email : List Char)
    (domains : List (List Char)) : List (List Char) :=
  certbotBaseCmd email
    ++ (if staging then [strL "--staging"] else [])
    ++ (if hasWildcard domains then acmeWildcardFlags else [])
    ++ domainArgs domains

/-! ## DDNS manager (`src/lecf/managers/ddns.py`)

The Cloudflare client (`src/lecf/core/cloudflare_client.py`) is abstracted as
an environment of total functions matching its documented sentinel-failure
contract: `get_zone_id` returns `(zone_id, zone_name)` or `(None, None)`,
`get_dns_records` returns a (possibly empty) record list, `update_dns_record`
returns a success flag, `create_dns_record` returns a record id or `None`.
The client never raises past its boundary. -/

/-- An existing remote DNS record, as read by `update_dns_record`
(`dns_records[0]["id"]`, `["content"]`, `.get("proxied", False)`; the
`proxied` key may be absent). -/
structure RemoteRecord where
  id : List Char
  content : List Char
  proxied : Option Bool
deriving DecidableEq

/-- The record payload sent on a create or update (lines 231-237 and
259-265 of `ddns.py`): name, type, content, ttl, proxied. -/
structure RecordPayload where
  name : List Char
  rtype : List Char
  content : List Char
  ttl : Nat
  proxied : Bool
deriving DecidableEq

/-- A call issued to the DNS provider client. -/
inductive CfCall where
  | zoneLookup (domain : List Char)
  | listRecords (zoneId : List Char) (name : List Char) (rtype : List Char)
  | update (zoneId : List Char) (recordId : List Char) (payload : RecordPayload)
  | create (zoneId : List Char) (payload : RecordPayload)
deriving DecidableEq

/-- Whether a provider call is a write (create or update). -/
def isWriteCall : CfCall → Bool
  | CfCall.update _ _ _ => true
  | CfCall.create _ _ => true
  | _ => false

/-- The DNS provider environment for one reconciliation pass (the remote
authority's responses, assumed stable within the pass). -/
structure CfEnv where
  zoneId : List Char → Option (List Char × List Char)
  records : List Char → List Char → List Char → List RemoteRecord
  updateOk : List Char → List Char → RecordPayload → Bool
  createId : List Char → RecordPayload → Option (List Char)

/-- Model of `record_name = domain if subdomain == "@" else f"{subdomain}.{domain}"`
(line 191). -/
def recordName (domain subdomain : List Char) : List Char :=
  if subdomain = strL "@" then domain else subdomain ++ '.' :: domain

/-- Model of `DdnsManager.update_dns_record` (lines 170-290): returns the Python
function's boolean result together with the list of provider calls issued,
in order.  The `none` zone case models `get_zone_id` returning
`(None, None)` and the `isEmpty` guard the Python falsy check
`if not zone_id`. -/
def updateDnsRecord (env : CfEnv) (domain subdomain rtype ip : List Char) :
    Bool × List CfCall :=
  match env.zoneId domain with
  | none => (false, [CfCall.zoneLookup domain])
  | some (zid, _) =>
    if zid.isEmpty then (false, [CfCall.zoneLookup domain])
    else
      match env.records zid (recordName domain subdomain) rtype with
      | [] =>
        (match env.createId zid ⟨recordName domain subdomain, rtype, ip, 60, false⟩ with
          | some _ => true
          | none => false,
         [CfCall.zoneLookup domain,
          CfCall.listRecords zid (recordName domain subdomain) rtype,
          CfCall.create zid ⟨recordName domain subdomain, rtype, ip, 60, false⟩])
      | r :: _ =>
        if r.content = ip then
          (true,
           [CfCall.zoneLookup domain,
            CfCall.listRecords zid (recordName domain subdomain) rtype])
        else
          (env.updateOk zid r.id
             ⟨recordName domain subdomain, rtype, ip, 60, r.proxied.getD false⟩,
           [CfCall.zoneLookup domain,
            CfCall.listRecords zid (recordName domain subdomain) rtype,
            CfCall.update zid r.id
              ⟨recordName domain subdomain, rtype, ip, 60, r.proxied.getD false⟩])

/-- Parsed per-domain DDNS configuration (`DdnsManager._parse_domains`
result values): subdomain list and optional record-type list (`none` means
use the default at use time). -/
structure DomainCfg where
  subdomains : List (List Char)
  recordTypes : Option (List (List Char))
deriving DecidableEq

/-- Model of `self.default_record_types = ["A"]` (line 27). -/
def defaultRecordTypes : List (List Char) :=
  [strL "A"]

/-- Python `config.get("record_types") or self.default_record_types`
(line 327): `None` and the empty list are both falsy. -/
def pyOrList (x : Option (List (List Char))) (dflt : List (List Char)) :
    List (List Char) :=
  match x with
  | none => dflt
  | some l => if l.isEmpty then dflt else l

/-- The DDNS manager's mutable state (lines 37-39): the cached last-known
public IP and the last check time. -/
structure DdnsState where
  currentIp : Option (List Char)
  lastCheckTime : Option Nat
deriving DecidableEq

/-- One primitive step of `DdnsManager._execute_cycle`, in program order:
the IP probe, one per-record reconciliation, the final commit of the new IP
(line 346) and the final check-time update (line 347 / 305). -/
inductive CycleStep where
  | probeIp (result : Option (List Char))
  | recordUpdate (domain : List Char) (subdomain : List Char) (rtype : List Char)
      (ok : Bool) (calls : List CfCall)
  | commitIp (ip : List Char)
  | setCheckTime (t : Nat)
deriving DecidableEq

/-- The per-record reconciliation pass (lines 316-337): for each configured
domain, each subdomain, each record type (defaulted per `pyOrList`), one
`update_dns_record` invocation. -/
def passProgram (env : CfEnv) (domains : List (List Char × DomainCfg))
    (ip : List Char) : List CycleStep :=
  domains.flatMap (fun entry =>
    entry.2.subdomains.flatMap (fun sub =>
      (pyOrList entry.2.recordTypes defaultRecordTypes).map (fun rtype =>
        CycleStep.recordUpdate entry.1 sub rtype
          (updateDnsRecord env entry.1 sub rtype ip).1
          (updateDnsRecord env entry.1 sub rtype ip).2)))

/-- Model of `DdnsManager._execute_cycle` (lines 292-347) as its sequence of primitive
steps.  A failed probe (`None`) or a falsy (empty) IP aborts at line 298-300;
an unchanged IP returns after updating only the check time (lines 303-306);
otherwise the full pass runs and the new IP is committed afterwards. -/
def cycleProgram (env : CfEnv) (domains : List (List Char × DomainCfg))
    (probe : Option (List Char)) (now : Nat) (st : DdnsState) :
    List CycleStep :=
  match probe with
  | none => [CycleStep.probeIp none]
  | some ip =>
    if ip.isEmpty then [CycleStep.probeIp (some ip)]
    else if st.currentIp = some ip then
      [CycleStep.probeIp (some ip), CycleStep.setCheckTime now]
    else
      CycleStep.probeIp (some ip) ::
        (passProgram env domains ip
          ++ [CycleStep.commitIp ip, CycleStep.setCheckTime now])

/-- Effect of one cycle step on the manager's state: only the final commit
and check-time steps mutate it. -/
def applyStep (st : DdnsState) : CycleStep → DdnsState
  | CycleStep.commitIp ip => { st with currentIp := some ip }
  | CycleStep.setCheckTime t => { st with lastCheckTime := some t }
  | _ => st

/-- The state after a full (uninterrupted) `_execute_cycle`. -/
def executeCycle (env : CfEnv) (domains : List (List Char × DomainCfg))
    (probe : Option (List Char)) (now : Nat) (st : DdnsState) : DdnsState :=
  (cycleProgram env domains probe now st).foldl applyStep st

/-- Provider calls issued by one step. -/
def callsOfStep : CycleStep → List CfCall
  | CycleStep.recordUpdate _ _ _ _ calls => calls
  | _ => []

/-- All provider calls issued by a cycle, in order. -/
def cycleCalls (prog : List CycleStep) : List CfCall :=
  prog.flatMap callsOfStep

/-- The per-cycle `(update_count, error_count)` aggregation
(lines 316-317 and 332-337). -/
def cycleCounts (prog : List CycleStep) : Nat × Nat :=
  prog.foldl
    (fun acc s =>
      match s with
      | CycleStep.recordUpdate _ _ _ ok _ =>
        if ok then (acc.1 + 1, acc.2) else (acc.1, acc.2 + 1)
      | _ => acc)
    (0, 0)

/-- Step classifier: per-record reconciliation steps. -/
def isRecordUpdateStep : CycleStep → Bool
  | CycleStep.recordUpdate _ _ _ _ _ => true
  | _ => false

/-- Step classifier: steps that mutate the cached IP. -/
def mutatesIp : CycleStep → Bool
  | CycleStep.commitIp _ => true
  | _ => false

/-- Observable outcome of probing one IP-echo service: `none` models a raised
exception, otherwise the HTTP status and body. -/
structure IpProbeResponse where
  status : Nat
  body : List Char
deriving DecidableEq

/-- Model of `DdnsManager.get_public_ip` (lines 144-168): accept the first service
responding with HTTP 200, returning its trimmed body; `None` if every
service fails. -/
def getPublicIp : List (Option IpProbeResponse) → Option (List Char)
  | [] => none
  | some r :: rest =>
    if r.status = 200 then some (pyStrip r.body) else getPublicIp rest
  | none :: rest => getPublicIp rest

/-- An IP-echo service attempt that failed (exception or non-200 status). -/
def ipServiceFailed : Option IpProbeResponse → Bool
  | none => true
  | some r => decide (r.status ≠ 200)

/-! ## Sample fixtures used by the witness theorems -/

/-- An environment in which every provider operation fails. -/
def sampleEnvFail : CfEnv where
  zoneId := fun _ => none
  records := fun _ _ _ => []
  updateOk := fun _ _ _ => false
  createId := fun _ _ => none

/-- An environment with one zone, no existing records, and successful
creates. -/
def sampleEnvCreate : CfEnv where
  zoneId := fun _ => some (strL "zone1", strL "example.com")
  records := fun _ _ _ => []
  updateOk := fun _ _ _ => true
  createId := fun _ _ => some (strL "rec1")

/-- An environment with one zone and one existing proxied record whose
content differs from any new IP used in the witnesses. -/
def sampleEnvProxied : CfEnv where
  zoneId := fun _ => some (strL "zone1", strL "example.com")
  records := fun _ _ _ => [⟨strL "rec1", strL "198.51.100.7", some true⟩]
  updateOk := fun _ _ _ => true
  createId := fun _ _ => none

/-- A one-domain DDNS configuration. -/
def sampleDomains : List (List Char × DomainCfg) :=
  [(strL "example.com", ⟨[strL "@", strL "www"], none⟩)]

/-- A starting state with a cached IP. -/
def sampleState : DdnsState :=
  ⟨some (strL "203.0.113.5"), none⟩

/-- An environment in which the zone lookup fails for `"b.com"` only, no
records exist, and creates succeed. -/
def sampleEnvPartial : CfEnv where
  zoneId := fun d =>
    if d = strL "b.com" then none else some (strL "zone1", strL "zn")
  records := fun _ _ _ => []
  updateOk := fun _ _ _ => true
  createId := fun _ _ => some (strL "rec1")

/-! ### Structural lemmas about the string builtins -/

/-- Every character of every piece produced by `pySplitGo` occurs in the
input string. -/
theorem pySplitGo_mem_subset (sep : List Char) :
    ∀ (fuel : Nat) (s t : List Char), t ∈ pySplitGo sep fuel s →
      ∀ a ∈ t, a ∈ s := by
  intro fuel
  induction fuel with
  | zero =>
    intro s t ht a ha
    cases s with
    | nil =>
      simp [pySplitGo] at ht
      simp [ht] at ha
    | cons c rest =>
      simp [pySplitGo] at ht
      simpa [ht] using ha
  | succ k ih =>
    intro s t ht a ha
    cases s with
    | nil =>
      simp [pySplitGo] at ht
      simp [ht] at ha
    | cons c rest =>
      by_cases hp : sep.isPrefixOf (c :: rest) = true
      · simp [pySplitGo, hp] at ht
        rcases ht with ht | ht
        · simp [ht] at ha
        · exact List.drop_subset _ _ (ih _ t ht a ha)
      · rcases hgo : pySplitGo sep k rest with _ | ⟨g, gs⟩
        · simp [pySplitGo, hp, hgo] at ht
          subst ht
          simp at ha
          simp [ha]
        · simp [pySplitGo, hp, hgo] at ht
          rcases ht with ht | ht
          · subst ht
            rcases List.mem_cons.mp ha with h | h
            · simp [h]
            · refine List.mem_cons_of_mem _ (ih rest g ?_ a h)
              rw [hgo]
              exact List.mem_cons_self g gs
          · refine List.mem_cons_of_mem _ (ih rest t ?_ a ha)
            rw [hgo]
            exact List.mem_cons_of_mem _ ht

/-- Every character of every piece produced by `pySplit` occurs in the
input string. -/
theorem pySplit_mem_subset (sep s t : List Char) (ht : t ∈ pySplit sep s) :
    ∀ a ∈ t, a ∈ s := by
  unfold pySplit at ht
  by_cases hsep : sep.isEmpty = true
  · simp [hsep] at ht
    intro a ha
    simpa [ht] using ha
  · simp [hsep] at ht
    exact pySplitGo_mem_subset sep s.length s t ht

/-- The function `pyStrip` produces the empty string iff the input is all whitespace. -/
theorem pyStrip_eq_nil_iff (s : List Char) :
    pyStrip s = [] ↔ ∀ c ∈ s, c.isWhitespace = true := by
  unfold pyStrip
  rw [List.reverse_eq_nil_iff, List.dropWhile_eq_nil_iff]
  constructor
  · intro h c hc
    have hsplit :
        s.takeWhile Char.isWhitespace ++ s.dropWhile Char.isWhitespace = s :=
      List.takeWhile_append_dropWhile Char.isWhitespace s
    rw [← hsplit] at hc
    rcases List.mem_append.mp hc with h1 | h1
    · exact List.mem_takeWhile_imp h1
    · exact h c (List.mem_reverse.mpr h1)
  · intro h c hc
    refine h c ?_
    exact (List.dropWhile_sublist _).subset (List.mem_reverse.mp hc)

/-- A certificate config string that is blank after trimming yields no
tokens: every comma-piece of an all-whitespace string is all-whitespace. -/
theorem groupTokens_of_blank (cfg : List Char)
    (h : (pyStrip cfg).isEmpty = true) : groupTokens cfg = [] := by
  have hws : ∀ c ∈ cfg, c.isWhitespace = true :=
    (pyStrip_eq_nil_iff cfg).mp (List.isEmpty_iff.mp h)
  unfold groupTokens
  rw [List.filter_eq_nil_iff]
  intro a ha
  rcases List.mem_map.mp ha with ⟨t, ht, rfl⟩
  have : pyStrip t = [] := by
    refine (pyStrip_eq_nil_iff t).mpr ?_
    intro c hc
    exact hws c (pySplit_mem_subset _ _ _ ht c hc)
  simp [this]

/-- Loop characterization of `parseDomains`: it keeps, in order, exactly the
non-empty token lists of the semicolon-pieces. -/
theorem parseDomains_foldl (l : List (List Char)) (acc : List (List (List Char))) :
    l.foldl
      (fun result cfg =>
        if (pyStrip cfg).isEmpty then result
        else
          let domains := groupTokens cfg
          if domains.isEmpty then result else result ++ [domains])
      acc
    = acc ++ (l.map groupTokens).filter (fun g => ¬ g.isEmpty) := by
  induction l generalizing acc with
  | nil => simp
  | cons cfg l ih =>
    simp only [List.foldl_cons, List.map_cons]
    by_cases h1 : (pyStrip cfg).isEmpty = true
    · have h2 : groupTokens cfg = [] := groupTokens_of_blank cfg h1
      rw [if_pos h1, ih, h2]
      simp
    · rw [if_neg h1]
      by_cases h2 : (groupTokens cfg).isEmpty = true
      · simp only [h2, if_true, ih]
        have : groupTokens cfg = [] := List.isEmpty_iff.mp h2
        rw [this]
        simp
      · simp only [h2, if_false, ih]
        rw [List.filter_cons_of_pos (by simp [h2])]
        simp [List.append_assoc]

/-- The function `parseDomains` equals mapping `groupTokens` over the semicolon-pieces and
dropping empty groups. -/
theorem parseDomains_eq (s : List Char) :
    parseDomains s
      = ((pySplit (strL ";") s).map groupTokens).filter (fun g => ¬ g.isEmpty) := by
  unfold parseDomains
  exact parseDomains_foldl _ []

/-- Claim C1, union half (holds): an FQDN belongs to some returned group iff
it is a non-blank trimmed FQDN occurring in the input spec string. -/
theorem parseDomains_union (s d : List Char) :
    (∃ g ∈ parseDomains s, d ∈ g) ↔ d ∈ inputFqdns s := by
  rw [parseDomains_eq]
  unfold inputFqdns
  constructor
  · rintro ⟨g, hg, hd⟩
    rcases List.mem_filter.mp hg with ⟨hg1, _⟩
    rcases List.mem_map.mp hg1 with ⟨cfg, hcfg, rfl⟩
    rcases List.mem_filter.mp hd with ⟨hd1, hd2⟩
    refine List.mem_filter.mpr ⟨?_, hd2⟩
    exact List.mem_flatMap.mpr ⟨cfg, hcfg, hd1⟩
  · intro hd
    rcases List.mem_filter.mp hd with ⟨hd1, hd2⟩
    rcases List.mem_flatMap.mp hd1 with ⟨cfg, hcfg, hd3⟩
    have hmem : d ∈ groupTokens cfg := List.mem_filter.mpr ⟨hd3, hd2⟩
    refine ⟨groupTokens cfg, ?_, hmem⟩
    refine List.mem_filter.mpr ⟨List.mem_map_of_mem groupTokens hcfg, ?_⟩
    simp only [decide_not, Bool.not_eq_true']
    rcases h : (groupTokens cfg).isEmpty with _ | _
    · simp
    · rw [List.isEmpty_iff.mp h] at hmem
      simp at hmem

/-- Substring containment of a single character is list membership. -/
theorem containsSub_singleton (c : Char) (s : List Char) :
    containsSub [c] s = true ↔ c ∈ s := by
  induction s with
  | nil => simp [containsSub]
  | cons a rest ih => simp [containsSub, List.isPrefixOf, ih]

/-- The flag `has_wildcard` holds iff some domain contains the character `*`. -/
theorem hasWildcard_iff (domains : List (List Char)) :
    hasWildcard domains = true ↔ ∃ d ∈ domains, ('*' : Char) ∈ d := by
  simp [hasWildcard, show strL "*" = ['*'] from rfl, containsSub_singleton]

/-! ### Structural lemmas about the DDNS cycle -/

/-- Folding steps none of which commit an IP leaves the cached IP
unchanged. -/
theorem foldl_applyStep_currentIp (steps : List CycleStep) (st : DdnsState)
    (h : ∀ s ∈ steps, mutatesIp s = false) :
    (steps.foldl applyStep st).currentIp = st.currentIp := by
  induction steps generalizing st with
  | nil => rfl
  | cons s rest ih =>
    rw [List.foldl_cons]
    have hs := h s (List.mem_cons_self s rest)
    have hrest : ∀ x ∈ rest, mutatesIp x = false :=
      fun x hx => h x (List.mem_cons_of_mem s hx)
    rw [ih (applyStep st s) hrest]
    cases s with
    | probeIp _ => rfl
    | recordUpdate _ _ _ _ _ => rfl
    | commitIp _ => simp [mutatesIp] at hs
    | setCheckTime _ => rfl

/-- Whenever the probe yields a non-empty IP, a full cycle ends with that IP
cached (either the short-circuit found it already cached, or the commit at
the end of the pass stored it). -/
theorem executeCycle_currentIp (env : CfEnv)
    (domains : List (List Char × DomainCfg)) (ip : List Char) (now : Nat)
    (st : DdnsState) (hip : ip.isEmpty = false) :
    (executeCycle env domains (some ip) now st).currentIp = some ip := by
  unfold executeCycle cycleProgram
  by_cases hst : st.currentIp = some ip
  · simp [hip, hst, applyStep]
  · simp only [hip, hst, if_false, Bool.false_eq_true, if_neg, ite_false]
    rw [show CycleStep.probeIp (some ip) ::
        (passProgram env domains ip
          ++ [CycleStep.commitIp ip, CycleStep.setCheckTime now])
      = (CycleStep.probeIp (some ip) :: passProgram env domains ip)
          ++ [CycleStep.commitIp ip, CycleStep.setCheckTime now] from rfl]
    rw [List.foldl_append]
    rfl

/-- If every IP-echo service attempt fails, `get_public_ip` returns
`None`. -/
theorem getPublicIp_none (outcomes : List (Option IpProbeResponse))
    (hall : ∀ o ∈ outcomes, ipServiceFailed o = true) :
    getPublicIp outcomes = none := by
  induction outcomes with
  | nil => rfl
  | cons o rest ih =>
    have ho := hall o (List.mem_cons_self o rest)
    have hrest : ∀ x ∈ rest, ipServiceFailed x = true :=
      fun x hx => hall x (List.mem_cons_of_mem o hx)
    cases o with
    | none => simpa [getPublicIp] using ih hrest
    | some r =>
      have : r.status ≠ 200 := by simpa [ipServiceFailed] using ho
      simpa [getPublicIp, this] using ih hrest

/-- Every step of the reconciliation pass is a per-record reconciliation. -/
theorem passProgram_all_recordUpdate (env : CfEnv)
    (domains : List (List Char × DomainCfg)) (ip : List Char) :
    ∀ s ∈ passProgram env domains ip, isRecordUpdateStep s = true := by
  intro s hs
  rcases List.mem_flatMap.mp hs with ⟨entry, _, hs1⟩
  rcases List.mem_flatMap.mp hs1 with ⟨sub, _, hs2⟩
  rcases List.mem_map.mp hs2 with ⟨rtype, _, rfl⟩
  rfl

end Lecf

namespace LecfClaims

open Lecf

/-- C1 (counterexample): the disjointness half of the claim fails.  On the
spec string `"a.com;a.com"` the parser returns two groups and the FQDN
`"a.com"` appears in both (groups at the two distinct indices 0 and 1), so
an FQDN can appear in more than one returned group. -/
theorem parseDomains_not_disjoint :
    parseDomains (strL "a.com;a.com") = [[strL "a.com"], [strL "a.com"]] ∧
    strL "a.com" ∈ (parseDomains (strL "a.com;a.com")).getD 0 [] ∧
    strL "a.com" ∈ (parseDomains (strL "a.com;a.com")).getD 1 [] ∧
    (0 : Nat) ≠ 1 := by
  decide

/-- C1 (amended): for every certificate-group spec string the union of the
returned groups equals the set of non-blank trimmed FQDNs occurring in the
input; and provided no FQDN occurs in two distinct semicolon-separated
groups of the input, no FQDN appears in more than one returned group. -/
theorem parseDomains_partition (s : List Char)
    (hdisj : (((pySplit (strL ";") s).map groupTokens)).Pairwise
      (fun g1 g2 => ∀ d ∈ g1, d ∉ g2)) :
    (∀ d, (∃ g ∈ parseDomains s, d ∈ g) ↔ d ∈ inputFqdns s) ∧
    (parseDomains s).Pairwise (fun g1 g2 => ∀ d ∈ g1, d ∉ g2) := by
  constructor
  · exact fun d => parseDomains_union s d
  · rw [parseDomains_eq]
    exact hdisj.filter _

/-- Witness for `parseDomains_partition` at the spec string
`"example.com,www.example.com;test.com"`. -/
theorem parseDomains_partition_witness :
    ((((pySplit (strL ";") (strL "example.com,www.example.com;test.com")).map
        groupTokens)).Pairwise (fun g1 g2 => ∀ d ∈ g1, d ∉ g2)) ∧
    ((∀ d, (∃ g ∈ parseDomains (strL "example.com,www.example.com;test.com"),
        d ∈ g) ↔ d ∈ inputFqdns (strL "example.com,www.example.com;test.com")) ∧
     (parseDomains (strL "example.com,www.example.com;test.com")).Pairwise
       (fun g1 g2 => ∀ d ∈ g1, d ∉ g2)) :=
  ⟨by decide, parseDomains_partition (strL "example.com,www.example.com;test.com")
    (by decide)⟩

/-- C9 (counterexample): the primary domain used by the lifecycle engine is
not in general the first FQDN of the group in the input spec string.  For
the input `"a.com,b.com"` there is an admissible `list(set)` enumeration
order under which the chosen primary is `"b.com"`, not the first-inserted
`"a.com"`. -/
theorem certCyclePrimary_not_first :
    ¬ (∀ enum, IsSetEnum enum → ∀ s g, g ∈ parseDomains s →
        certCyclePrimary enum g = g.head?) := by
  intro h
  have henum : IsSetEnum (fun l => l.dedup.reverse) :=
    fun l => List.reverse_perm _
  have hc := h _ henum (strL "a.com,b.com") [strL "a.com", strL "b.com"]
    (by decide)
  exact absurd hc (by decide)

/-- C9 (amended): for every admissible `list(set)` enumeration order and every
group returned by the parser, the primary domain exists and is a member of
the group (but not necessarily its first-inserted FQDN). -/
theorem certCyclePrimary_mem (enum : List (List Char) → List (List Char))
    (henum : IsSetEnum enum) (s : List Char) (g : List (List Char))
    (hg : g ∈ parseDomains s) :
    ∃ d, certCyclePrimary enum g = some d ∧ d ∈ g := by
  have hne : g ≠ [] := by
    rw [parseDomains_eq] at hg
    rcases List.mem_filter.mp hg with ⟨_, h2⟩
    simp only [decide_not, Bool.not_eq_eq_eq_not, Bool.not_true] at h2
    exact fun hnil => by simp [hnil] at h2
  rcases g with _ | ⟨c, g'⟩
  · exact absurd rfl hne
  · have hmemd : c ∈ (c :: g').dedup :=
      List.mem_dedup.mpr (List.mem_cons_self c g')
    have hlen : (enum (c :: g')).length = ((c :: g').dedup).length :=
      (henum (c :: g')).length_eq
    have hne2 : enum (c :: g') ≠ [] := by
      intro hnil
      rw [hnil] at hlen
      rcases hd : (c :: g').dedup with _ | _
      · rw [hd] at hmemd
        simp at hmemd
      · rw [hd] at hlen
        simp at hlen
    rcases he : enum (c :: g') with _ | ⟨d, ds⟩
    · exact absurd he hne2
    · refine ⟨d, by simp [certCyclePrimary, he], ?_⟩
      have : d ∈ enum (c :: g') := by
        rw [he]
        exact List.mem_cons_self d ds
      exact List.dedup_subset _ ((henum (c :: g')).mem_iff.mp this)

/-- Witness for `certCyclePrimary_mem` with the identity-order enumeration at
the input `"a.com,b.com"`. -/
theorem certCyclePrimary_mem_witness :
    IsSetEnum (fun l => l.dedup) ∧
    ∃ d, certCyclePrimary (fun l => l.dedup)
        [strL "a.com", strL "b.com"] = some d ∧
      d ∈ [strL "a.com", strL "b.com"] :=
  ⟨fun l => List.Perm.refl _,
   certCyclePrimary_mem (fun l => l.dedup) (fun l => List.Perm.refl _)
     (strL "a.com,b.com") [strL "a.com", strL "b.com"] (by decide)⟩

/-- C2: whenever the certbot status output contains a `"VALID: "` expiry
field that matches neither the relative `"N days)"` shape (marker present
with an integer first token) nor the absolute `YYYY-MM-DD` shape,
`check_certificate_expiry` reports that renewal is needed, for every domain
list, renewal threshold and clock. -/
theorem checkCertificateExpiry_failsafe (renewalThreshold : Int)
    (daysUntil : Date → Int) (domains : List (List Char)) (res : CertbotResult)
    (hv : containsSub validTag res.stdout = true)
    (hrel : ¬ (containsSub daysSuffix (expirationPartOf res.stdout) = true ∧
        pyInt ((pySplit (strL " ") (expirationPartOf res.stdout)).getD 0 []) ≠ none))
    (habs : parseDateYMD (expirationPartOf res.stdout) = none) :
    checkCertificateExpiry renewalThreshold daysUntil domains res = true := by
  unfold checkCertificateExpiry
  split_ifs with h1 h2 h3 h4 h5
  any_goals rfl
  · rcases hp : pyInt ((pySplit (strL " ") (expirationPartOf res.stdout)).getD 0 [])
      with _ | d
    · rfl
    · exact absurd ⟨h5, by rw [hp]; simp⟩ hrel
  · rw [habs]

/-- Witness for `checkCertificateExpiry_failsafe` on an output whose expiry
field is the unparsable `"soon"`. -/
theorem checkCertificateExpiry_failsafe_witness :
    containsSub validTag (strL "Expiry Date: (VALID: soon\n") = true ∧
    ¬ (containsSub daysSuffix
        (expirationPartOf (strL "Expiry Date: (VALID: soon\n")) = true ∧
      pyInt ((pySplit (strL " ")
        (expirationPartOf (strL "Expiry Date: (VALID: soon\n"))).getD 0 []) ≠ none) ∧
    parseDateYMD (expirationPartOf (strL "Expiry Date: (VALID: soon\n")) = none ∧
    checkCertificateExpiry 30 (fun _ => 0) [strL "a.example.org"]
      ⟨0, strL "Expiry Date: (VALID: soon\n"⟩ = true :=
  ⟨by decide, by decide, by decide,
   checkCertificateExpiry_failsafe 30 (fun _ => 0) [strL "a.example.org"]
     ⟨0, strL "Expiry Date: (VALID: soon\n"⟩ (by decide) (by decide) (by decide)⟩

/-- C8 (counterexample): the wildcard tagging is not equivalent to some
member starting with `*`.  For the single domain `"a*b.com"` (which contains
but does not start with `*`) the built certbot command does include the
wildcard flags, yet no member starts with `*`. -/
theorem obtainCertificateCmd_star_counterexample :
    obtainCertificateCmd false (strL "admin@example.com") [strL "a*b.com"] =
      certbotBaseCmd (strL "admin@example.com") ++ acmeWildcardFlags
        ++ domainArgs [strL "a*b.com"] ∧
    ∀ d ∈ [strL "a*b.com"], d.head? ≠ some '*' := by
  decide

/-- C8 (amended): the certbot command built by `obtain_certificate` carries
the wildcard flags (alternate ACME server and longer DNS-propagation wait)
iff some member of the group contains the character `*`. -/
theorem obtainCertificateCmd_wildcard_iff (staging : Bool) (email : List Char)
    (domains : List (List Char)) :
    (obtainCertificateCmd staging email domains =
        certbotBaseCmd email ++ (if staging then [strL "--staging"] else [])
          ++ acmeWildcardFlags ++ domainArgs domains
      ∨ obtainCertificateCmd staging email domains =
        certbotBaseCmd email ++ (if staging then [strL "--staging"] else [])
          ++ domainArgs domains) ∧
    ((obtainCertificateCmd staging email domains =
        certbotBaseCmd email ++ (if staging then [strL "--staging"] else [])
          ++ acmeWildcardFlags ++ domainArgs domains)
      ↔ ∃ d ∈ domains, ('*' : Char) ∈ d) := by
  rcases hw : hasWildcard domains with _ | _
  · refine ⟨Or.inr (by simp [obtainCertificateCmd, hw]), ?_, ?_⟩
    · intro heq
      exfalso
      have hlen := congrArg List.length heq
      simp [obtainCertificateCmd, hw, acmeWildcardFlags] at hlen
      omega
    · intro hex
      exact absurd ((hasWildcard_iff domains).mpr hex) (by simp [hw])
  · refine ⟨Or.inl (by simp [obtainCertificateCmd, hw]), ?_, ?_⟩
    · intro _
      exact (hasWildcard_iff domains).mp hw
    · intro _
      simp [obtainCertificateCmd, hw]

/-- C3: for every DDNS configuration, environment and probed IP, if two
consecutive cycles observe the same public IP (and the same remote record
state, represented by running against the same environment), the second
invocation of `_execute_cycle` issues no provider calls at all — in
particular zero create/update calls. -/
theorem ddns_idempotent (env : CfEnv) (domains : List (List Char × DomainCfg))
    (v : List Char) (t1 t2 : Nat) (st : DdnsState) :
    cycleCalls (cycleProgram env domains (some v) t2
      (executeCycle env domains (some v) t1 st)) = [] := by
  by_cases hv : v.isEmpty = true
  · simp [cycleProgram, hv, cycleCalls, callsOfStep]
  · have h := executeCycle_currentIp env domains v t1 st (Bool.not_eq_true _ ▸ hv)
    simp [cycleProgram, hv, h, cycleCalls, callsOfStep]

/-- C4: when the first matching remote record is proxied and its content
differs from the new IP, `update_dns_record` issues exactly one update,
whose payload carries `proxied = true` (the remote flag is preserved). -/
theorem updateDnsRecord_preserves_proxied (env : CfEnv)
    (domain subdomain rtype ip zid zname : List Char) (r : RemoteRecord)
    (rs : List RemoteRecord)
    (hz : env.zoneId domain = some (zid, zname)) (hzne : zid.isEmpty = false)
    (hr : env.records zid (recordName domain subdomain) rtype = r :: rs)
    (hp : r.proxied = some true) (hc : r.content ≠ ip) :
    (updateDnsRecord env domain subdomain rtype ip).2 =
      [CfCall.zoneLookup domain,
       CfCall.listRecords zid (recordName domain subdomain) rtype,
       CfCall.update zid r.id
         ⟨recordName domain subdomain, rtype, ip, 60, true⟩] := by
  simp [updateDnsRecord, hz, hzne, hr, hp, hc]

/-- Witness for `updateDnsRecord_preserves_proxied` on a concrete proxied
record. -/
theorem updateDnsRecord_preserves_proxied_witness :
    (sampleEnvProxied.zoneId (strL "example.com")
        = some (strL "zone1", strL "example.com") ∧
     (strL "zone1").isEmpty = false ∧
     sampleEnvProxied.records (strL "zone1")
        (recordName (strL "example.com") (strL "www")) (strL "A")
        = [RemoteRecord.mk (strL "rec1") (strL "198.51.100.7") (some true)] ∧
     (RemoteRecord.mk (strL "rec1") (strL "198.51.100.7")
        (some true)).proxied = some true ∧
     (RemoteRecord.mk (strL "rec1") (strL "198.51.100.7")
        (some true)).content ≠ strL "203.0.113.9") ∧
    (updateDnsRecord sampleEnvProxied (strL "example.com") (strL "www")
        (strL "A") (strL "203.0.113.9")).2 =
      [CfCall.zoneLookup (strL "example.com"),
       CfCall.listRecords (strL "zone1")
         (recordName (strL "example.com") (strL "www")) (strL "A"),
       CfCall.update (strL "zone1") (strL "rec1")
         ⟨recordName (strL "example.com") (strL "www"), strL "A",
          strL "203.0.113.9", 60, true⟩] :=
  ⟨⟨by decide, by decide, by decide, by decide, by decide⟩,
   updateDnsRecord_preserves_proxied sampleEnvProxied (strL "example.com")
     (strL "www") (strL "A") (strL "203.0.113.9") (strL "zone1")
     (strL "example.com")
     (RemoteRecord.mk (strL "rec1") (strL "198.51.100.7") (some true)) []
     (by decide) (by decide) (by decide) (by decide) (by decide)⟩

/-- C5: with a successfully probed new IP, the cycle runs as the probe,
then the per-record pass, then the commit of the new IP and the check-time
update; along every prefix that has not yet reached the commit (in
particular at any interruption point before or during the pass), the cached
IP is still the old one, and only the completed cycle caches the new IP. -/
theorem ddns_commit_only_after_pass (env : CfEnv)
    (domains : List (List Char × DomainCfg)) (ip : List Char) (now : Nat)
    (st : DdnsState) (hip : ip.isEmpty = false) (hst : st.currentIp ≠ some ip) :
    cycleProgram env domains (some ip) now st =
      CycleStep.probeIp (some ip) :: (passProgram env domains ip
        ++ [CycleStep.commitIp ip, CycleStep.setCheckTime now]) ∧
    (∀ s ∈ passProgram env domains ip, isRecordUpdateStep s = true) ∧
    (∀ n ≤ (passProgram env domains ip).length + 1,
      (((cycleProgram env domains (some ip) now st).take n).foldl applyStep
        st).currentIp = st.currentIp) ∧
    (executeCycle env domains (some ip) now st).currentIp = some ip := by
  have hprog : cycleProgram env domains (some ip) now st =
      CycleStep.probeIp (some ip) :: (passProgram env domains ip
        ++ [CycleStep.commitIp ip, CycleStep.setCheckTime now]) := by
    simp [cycleProgram, hip, hst]
  refine ⟨hprog, passProgram_all_recordUpdate env domains ip, ?_,
    executeCycle_currentIp env domains ip now st hip⟩
  intro n hn
  rw [hprog]
  cases n with
  | zero => rfl
  | succ m =>
    rw [List.take_succ_cons]
    have hm : m ≤ (passProgram env domains ip).length := by omega
    rw [List.take_append_of_le_length hm]
    refine foldl_applyStep_currentIp _ st ?_
    intro s hs
    rcases List.mem_cons.mp hs with rfl | hs2
    · rfl
    · have := passProgram_all_recordUpdate env domains ip s
        (List.take_subset m _ hs2)
      cases s with
      | probeIp _ => rfl
      | recordUpdate _ _ _ _ _ => rfl
      | commitIp _ => simp [isRecordUpdateStep] at this
      | setCheckTime _ => simp [isRecordUpdateStep] at this

set_option maxRecDepth 20000 in
/-- Witness for `ddns_commit_only_after_pass` on a concrete configuration
and environment. -/
theorem ddns_commit_only_after_pass_witness :
    ((strL "198.51.100.7").isEmpty = false ∧
     sampleState.currentIp ≠ some (strL "198.51.100.7")) ∧
    (cycleProgram sampleEnvCreate sampleDomains (some (strL "198.51.100.7")) 0
        sampleState =
      CycleStep.probeIp (some (strL "198.51.100.7")) ::
        (passProgram sampleEnvCreate sampleDomains (strL "198.51.100.7")
          ++ [CycleStep.commitIp (strL "198.51.100.7"),
              CycleStep.setCheckTime 0]) ∧
     (∀ s ∈ passProgram sampleEnvCreate sampleDomains (strL "198.51.100.7"),
       isRecordUpdateStep s = true) ∧
     (∀ n ≤ (passProgram sampleEnvCreate sampleDomains
         (strL "198.51.100.7")).length + 1,
       (((cycleProgram sampleEnvCreate sampleDomains
           (some (strL "198.51.100.7")) 0 sampleState).take n).foldl applyStep
         sampleState).currentIp = sampleState.currentIp) ∧
     (executeCycle sampleEnvCreate sampleDomains (some (strL "198.51.100.7")) 0
       sampleState).currentIp = some (strL "198.51.100.7")) :=
  ⟨⟨by decide, by decide⟩,
   ddns_commit_only_after_pass sampleEnvCreate sampleDomains
     (strL "198.51.100.7") 0 sampleState (by decide) (by decide)⟩

/-- C6: when every IP-echo service fails, `get_public_ip` returns `None` and
the cycle aborts: the state (in particular the cached last-known IP) is
unchanged and no provider call — in particular no create/update — is
issued. -/
theorem ddns_abort_on_probe_failure (outcomes : List (Option IpProbeResponse))
    (env : CfEnv) (domains : List (List Char × DomainCfg)) (now : Nat)
    (st : DdnsState) (hall : ∀ o ∈ outcomes, ipServiceFailed o = true) :
    getPublicIp outcomes = none ∧
    executeCycle env domains (getPublicIp outcomes) now st = st ∧
    cycleCalls (cycleProgram env domains (getPublicIp outcomes) now st) = [] := by
  have hnone := getPublicIp_none outcomes hall
  refine ⟨hnone, ?_, ?_⟩ <;>
    simp [hnone, executeCycle, cycleProgram, cycleCalls, callsOfStep, applyStep]

set_option maxRecDepth 20000 in
/-- Witness for `ddns_abort_on_probe_failure`: one service raises, the other
returns HTTP 500. -/
theorem ddns_abort_on_probe_failure_witness :
    (∀ o ∈ [none, some (IpProbeResponse.mk 500 (strL "oops"))],
      ipServiceFailed o = true) ∧
    (getPublicIp [none, some (IpProbeResponse.mk 500 (strL "oops"))] = none ∧
     executeCycle sampleEnvCreate sampleDomains
       (getPublicIp [none, some (IpProbeResponse.mk 500 (strL "oops"))]) 0
       sampleState = sampleState ∧
     cycleCalls (cycleProgram sampleEnvCreate sampleDomains
       (getPublicIp [none, some (IpProbeResponse.mk 500 (strL "oops"))]) 0
       sampleState) = []) :=
  ⟨by decide,
   ddns_abort_on_probe_failure [none, some (IpProbeResponse.mk 500 (strL "oops"))]
     sampleEnvCreate sampleDomains 0 sampleState (by decide)⟩

/-- C7: for three single-triple DDNS targets where the second target's zone
lookup fails and the first and third reconcile successfully, the cycle's
aggregate counts are exactly 2 updates and 1 error, and every provider call
of the first and third targets (including their create/update calls) is
still issued. -/
theorem ddns_partial_failure_isolation (env : CfEnv)
    (d1 d2 d3 s1 s2 s3 t1 t2 t3 ip : List Char)
    (domains : List (List Char × DomainCfg)) (now : Nat) (st : DdnsState)
    (hdom : domains = [(d1, ⟨[s1], some [t1]⟩), (d2, ⟨[s2], some [t2]⟩),
      (d3, ⟨[s3], some [t3]⟩)])
    (hip : ip.isEmpty = false) (hst : st.currentIp ≠ some ip)
    (h1 : (updateDnsRecord env d1 s1 t1 ip).1 = true)
    (h3 : (updateDnsRecord env d3 s3 t3 ip).1 = true)
    (h2 : env.zoneId d2 = none) :
    cycleCounts (cycleProgram env domains (some ip) now st) = (2, 1) ∧
    (∀ c ∈ (updateDnsRecord env d1 s1 t1 ip).2,
      c ∈ cycleCalls (cycleProgram env domains (some ip) now st)) ∧
    (∀ c ∈ (updateDnsRecord env d3 s3 t3 ip).2,
      c ∈ cycleCalls (cycleProgram env domains (some ip) now st)) := by
  subst hdom
  have hu2 : updateDnsRecord env d2 s2 t2 ip = (false, [CfCall.zoneLookup d2]) := by
    simp [updateDnsRecord, h2]
  refine ⟨?_, ?_, ?_⟩
  · simp [cycleProgram, hip, hst, passProgram, pyOrList, cycleCounts,
      h1, h2, hu2, h3]
  · intro c hc
    simp [cycleProgram, hip, hst, passProgram, pyOrList, cycleCalls, callsOfStep]
    tauto
  · intro c hc
    simp [cycleProgram, hip, hst, passProgram, pyOrList, cycleCalls, callsOfStep]
    tauto

set_option maxRecDepth 20000 in
/-- Witness for `ddns_partial_failure_isolation`: three zones, the middle
zone lookup failing. -/
theorem ddns_partial_failure_isolation_witness :
    ((strL "198.51.100.7").isEmpty = false ∧
     (DdnsState.mk none none).currentIp ≠ some (strL "198.51.100.7") ∧
     (updateDnsRecord sampleEnvPartial (strL "a.com") (strL "@") (strL "A")
        (strL "198.51.100.7")).1 = true ∧
     (updateDnsRecord sampleEnvPartial (strL "c.com") (strL "@") (strL "A")
        (strL "198.51.100.7")).1 = true ∧
     sampleEnvPartial.zoneId (strL "b.com") = none) ∧
    (cycleCounts (cycleProgram sampleEnvPartial
        [(strL "a.com", ⟨[strL "@"], some [strL "A"]⟩),
         (strL "b.com", ⟨[strL "@"], some [strL "A"]⟩),
         (strL "c.com", ⟨[strL "@"], some [strL "A"]⟩)]
        (some (strL "198.51.100.7")) 0 (DdnsState.mk none none)) = (2, 1) ∧
     (∀ c ∈ (updateDnsRecord sampleEnvPartial (strL "a.com") (strL "@")
         (strL "A") (strL "198.51.100.7")).2,
       c ∈ cycleCalls (cycleProgram sampleEnvPartial
         [(strL "a.com", ⟨[strL "@"], some [strL "A"]⟩),
          (strL "b.com", ⟨[strL "@"], some [strL "A"]⟩),
          (strL "c.com", ⟨[strL "@"], some [strL "A"]⟩)]
         (some (strL "198.51.100.7")) 0 (DdnsState.mk none none))) ∧
     (∀ c ∈ (updateDnsRecord sampleEnvPartial (strL "c.com") (strL "@")
         (strL "A") (strL "198.51.100.7")).2,
       c ∈ cycleCalls (cycleProgram sampleEnvPartial
         [(strL "a.com", ⟨[strL "@"], some [strL "A"]⟩),
          (strL "b.com", ⟨[strL "@"], some [strL "A"]⟩),
          (strL "c.com", ⟨[strL "@"], some [strL "A"]⟩)]
         (some (strL "198.51.100.7")) 0 (DdnsState.mk none none)))) :=
  ⟨⟨by decide, by decide, by decide, by decide, by decide⟩,
   ddns_partial_failure_isolation sampleEnvPartial
     (strL "a.com") (strL "b.com") (strL "c.com")
     (strL "@") (strL "@") (strL "@") (strL "A") (strL "A") (strL "A")
     (strL "198.51.100.7")
     [(strL "a.com", ⟨[strL "@"], some [strL "A"]⟩),
      (strL "b.com", ⟨[strL "@"], some [strL "A"]⟩),
      (strL "c.com", ⟨[strL "@"], some [strL "A"]⟩)]
     0 (DdnsState.mk none none) rfl (by decide) (by decide)
     (by decide) (by decide) (by decide)⟩

/-- C10: when the probed IP is new (differs from the cached one), the cycle
commits it as last-known regardless of how many per-record reconciliations
failed, and a subsequent cycle probing the same IP issues no provider calls
at all — the failed records are not retried while the IP stays the same. -/
theorem ddns_commit_despite_errors (env env2 : CfEnv)
    (domains : List (List Char × DomainCfg)) (ip : List Char) (now now2 : Nat)
    (st : DdnsState) (hip : ip.isEmpty = false)
    (hst : st.currentIp ≠ some ip) :
    (executeCycle env domains (some ip) now st).currentIp = some ip ∧
    cycleCalls (cycleProgram env2 domains (some ip) now2
      (executeCycle env domains (some ip) now st)) = [] := by
  have h := executeCycle_currentIp env domains ip now st hip
  exact ⟨h, by simp [cycleProgram, hip, h, cycleCalls, callsOfStep]⟩

set_option maxRecDepth 20000 in
/-- Witness for `ddns_commit_despite_errors` in an environment where every
reconciliation fails (error count 2 > 0): the new IP is still committed and
the next cycle does nothing. -/
theorem ddns_commit_despite_errors_witness :
    cycleCounts (cycleProgram sampleEnvFail sampleDomains
      (some (strL "198.51.100.7")) 0 sampleState) = (0, 2) ∧
    ((strL "198.51.100.7").isEmpty = false ∧
     sampleState.currentIp ≠ some (strL "198.51.100.7")) ∧
    ((executeCycle sampleEnvFail sampleDomains (some (strL "198.51.100.7")) 0
        sampleState).currentIp = some (strL "198.51.100.7") ∧
     cycleCalls (cycleProgram sampleEnvFail sampleDomains
       (some (strL "198.51.100.7")) 1
       (executeCycle sampleEnvFail sampleDomains (some (strL "198.51.100.7")) 0
         sampleState)) = []) :=
  ⟨by decide, ⟨by decide, by decide⟩,
   ddns_commit_despite_errors sampleEnvFail sampleEnvFail sampleDomains
     (strL "198.51.100.7") 0 1 sampleState (by decide) (by decide)⟩

end LecfClaims
